import Mathlib

/-!
Shallow embedding of `frequenz-client-reporting` (`src/frequenz/client/reporting/_client.py`
and `__main__.py`), for checking the repository's specification.

Modelling conventions:

* Protobuf scalar `float`/`double` values are modelled as exact rationals (`ℚ`);
  the flattening code never does arithmetic on them, it only passes them through
  and tests Python truthiness (`x != 0.0`).  `NaN` is outside the model.
* Python `None` / protobuf field presence is modelled with `Option`.
* Python truthiness: a protobuf *message* object in the Python runtime defines no
  `__bool__`, so it is always truthy (the well-known `HasField` pitfall); this is
  captured by `pbMessageTruthy`, which is constantly `true`.  A protobuf scalar
  float is truthy iff it is non-zero.  A `datetime` object is always truthy.
* Python `datetime` values are modelled as an absolute instant in microseconds
  plus a flag recording whether `tzinfo=timezone.utc` is attached
  (`google.protobuf.Timestamp.ToDatetime()` yields a tz-naive datetime).
* The metric catalog (`frequenz.client.common.metric.Metric`, an external
  collaborator, not part of this repository) is modelled abstractly: a metric
  enum wire code is a `Nat`, and `Metric.from_proto(code).name` is an arbitrary
  total function parameter `catalog : Nat → String`.
* Python generators are modelled as the list of values they yield, in order;
  a `for` loop with `yield` becomes `List.flatMap`.
-/

/-- Python truthiness of a protobuf message object: the protobuf Python runtime
defines no `__bool__` on generated messages, so `bool(msg)` is always `True`,
even for a default (unset) sub-message instance. -/
def pbMessageTruthy : Bool := true

/-- Python truthiness of a protobuf scalar float field: non-zero. -/
def pbFloatTruthy (x : ℚ) : Bool := x ≠ 0

/-- A value carried by an emitted sample: Python `None`, a float, or an integer
state/warning/error enum code (the loose `float | code | null` union the spec
describes). -/
inductive PyValue where
  | pyNone : PyValue
  | pyFloat (q : ℚ) : PyValue
  | pyInt (n : Int) : PyValue
deriving DecidableEq, Repr

/-- A `google.protobuf.Timestamp`: an absolute instant (microseconds). -/
structure PBTimestamp where
  micros : Int
deriving DecidableEq, Repr

/-- A Python `datetime`: an absolute instant plus whether `timezone.utc` is
attached as `tzinfo` (`tzUtc = false` means tz-naive). -/
structure PyDatetime where
  micros : Int
  tzUtc : Bool
deriving DecidableEq, Repr

/-- `Timestamp.ToDatetime()`: yields a tz-naive datetime for the same instant. -/
def PBTimestamp.toDatetime (t : PBTimestamp) : PyDatetime :=
  { micros := t.micros, tzUtc := false }

/-- `datetime.replace(tzinfo=timezone.utc)`: attaches the UTC zone, keeping the
clock fields (hence the instant, since the wire datetimes are naive UTC). -/
def PyDatetime.replaceTzUtc (d : PyDatetime) : PyDatetime :=
  { d with tzUtc := true }

/-- `google.protobuf.Timestamp.FromDatetime`. -/
def PBTimestamp.fromDatetime (d : PyDatetime) : PBTimestamp :=
  { micros := d.micros }

/-- A Python `datetime.timedelta`: exact microseconds. -/
structure PyTimedelta where
  micros : Int
deriving DecidableEq, Repr

/-- `timedelta.total_seconds()` (modelled exactly, as a rational). -/
def PyTimedelta.total_seconds (td : PyTimedelta) : ℚ :=
  (td.micros : ℚ) / 1000000

/-- `frequenz.api.common.v1.metrics.Bounds`: plain float `lower`/`upper`
fields (proto default `0.0` when unset). -/
structure PBBounds where
  lower : ℚ
  upper : ℚ
deriving DecidableEq, Repr

/-- `SimpleMetricSample`: the simple value variant, a single float. -/
structure SimpleMetricSample where
  value : ℚ
deriving DecidableEq, Repr

/-- Proto default instance of `SimpleMetricSample` (float defaults to 0). -/
def SimpleMetricSample.default : SimpleMetricSample := { value := 0 }

/-- `MetricSampleVariant`: holds an optional `simple_metric` sub-message.
Other variant kinds (e.g. aggregated) are never read by the client code, so
only the presence/absence of `simple_metric` is modelled. -/
structure MetricSampleVariant where
  simple_metric : Option SimpleMetricSample
deriving DecidableEq, Repr

/-- Python attribute access `variant.simple_metric`: an unset message field
reads as the default instance (never `None`). -/
def MetricSampleVariant.get_simple_metric (v : MetricSampleVariant) : SimpleMetricSample :=
  v.simple_metric.getD SimpleMetricSample.default

/-- A wire `MetricSample` message: timestamp, metric enum code, value variant,
and repeated bounds. -/
structure PBMetricSample where
  sampled_at : PBTimestamp
  metric : Nat
  value : MetricSampleVariant
  bounds : List PBBounds
deriving DecidableEq, Repr

/-- A wire state sample: timestamp plus repeated enum codes for the three
categories `states`, `warnings`, `errors`. -/
structure PBStateSample where
  sampled_at : PBTimestamp
  states : List Int
  warnings : List Int
  errors : List Int
deriving DecidableEq, Repr

/-- Per-component data inside a streamed response. -/
structure PBComponentData where
  component_id : Int
  metric_samples : List PBMetricSample
  states : List PBStateSample
deriving DecidableEq, Repr

/-- `ReceiveMicrogridComponentsDataStreamResponse`: one streamed response,
scoped to a single microgrid. -/
structure PBReceiveMicrogridComponentsDataStreamResponse where
  microgrid_id : Int
  components : List PBComponentData
deriving DecidableEq, Repr

/-- The `MetricSample` named tuple produced by the client. -/
structure MetricSample where
  timestamp : PyDatetime
  microgrid_id : Int
  component_id : Int
  metric : String
  value : PyValue
deriving DecidableEq, Repr

/-- `ComponentsDataBatch`: wrapper around one raw streamed response. -/
structure ComponentsDataBatch where
  data_pb : PBReceiveMicrogridComponentsDataStreamResponse
deriving DecidableEq, Repr

/-- `ComponentsDataBatch.is_empty`, translated line by line: true when there
are no components, or the first component has neither metric samples nor
states; false otherwise. -/
def ComponentsDataBatch.is_empty (b : ComponentsDataBatch) : Bool :=
  match b.data_pb.components with
  | [] => true
  | c0 :: _ =>
    if c0.metric_samples.isEmpty && c0.states.isEmpty then true
    else false

/-- Python repeated scalar containers are always `Iterable`, so the
`isinstance(category, Iterable)` guard in the state loop always passes. -/
def pbRepeatedIsIterable (_ : List Int) : Bool := true

/-- The body of the metric-sample loop in `ComponentsDataBatch.__iter__`:
for one `msample`, the primary sample followed by the bound sub-samples
(`enumerate(msample.bounds)`, emitting the lower side then the upper side of
each bound, each only when the scalar float is truthy). -/
def metricSampleYields (catalog : Nat → String) (mid cid : Int)
    (msample : PBMetricSample) : List MetricSample :=
  let ts := msample.sampled_at.toDatetime.replaceTzUtc
  let met := catalog msample.metric
  let value :=
    if pbMessageTruthy then PyValue.pyFloat msample.value.get_simple_metric.value
    else PyValue.pyNone
  MetricSample.mk ts mid cid met value ::
    msample.bounds.enum.flatMap (fun p =>
      (if pbFloatTruthy p.2.lower then
        [MetricSample.mk ts mid cid
          (met ++ "_bound_" ++ toString p.1 ++ "_lower") (PyValue.pyFloat p.2.lower)]
      else []) ++
      (if pbFloatTruthy p.2.upper then
        [MetricSample.mk ts mid cid
          (met ++ "_bound_" ++ toString p.1 ++ "_upper") (PyValue.pyFloat p.2.upper)]
      else []))

/-- The body of the state loop in `ComponentsDataBatch.__iter__`: for one
state sample, iterate the fixed dict `{"state": states, "warning": warnings,
"error": errors}` in insertion order, and emit one sample per contained code.
Note the timestamp is `state.sampled_at.ToDatetime()` with *no* timezone
normalization. -/
def stateSampleYields (mid cid : Int) (state : PBStateSample) : List MetricSample :=
  let ts := state.sampled_at.toDatetime
  [("state", state.states), ("warning", state.warnings), ("error", state.errors)].flatMap
    (fun nc =>
      if pbRepeatedIsIterable nc.2 then
        nc.2.map (fun s => MetricSample.mk ts mid cid nc.1 (PyValue.pyInt s))
      else [])

/-- `ComponentsDataBatch.__iter__`, as the list of samples the generator
yields, in order: for each component (in response order), the metric-sample
loop then the state loop. -/
def ComponentsDataBatch.iter (catalog : Nat → String)
    (b : ComponentsDataBatch) : List MetricSample :=
  let data := b.data_pb
  let mid := data.microgrid_id
  data.components.flatMap (fun cdata =>
    let cid := cdata.component_id
    cdata.metric_samples.flatMap (metricSampleYields catalog mid cid) ++
      cdata.states.flatMap (stateSampleYields mid cid))

/-- A metric enum value of the external catalog (`frequenz.client.common.metric.Metric`);
only its wire code matters to the request builder. -/
structure Metric where
  code : Nat
deriving DecidableEq, Repr

/-- `Metric.to_proto()`: the wire enum code of the metric. -/
def Metric.to_proto (m : Metric) : Nat := m.code

/-- Python truthiness of a `datetime` object: always `True` (since Python 3.5
even midnight is truthy). -/
def pyDatetimeTruthy (_ : PyDatetime) : Bool := true

/-- Python 3 `round()` to an integer: round to the nearest integer,
ties to the even integer (banker's rounding). -/
def pythonRound (q : ℚ) : ℤ :=
  if Int.fract q < 1 / 2 then ⌊q⌋
  else if 1 / 2 < Int.fract q then ⌊q⌋ + 1
  else if Even ⌊q⌋ then ⌊q⌋ else ⌊q⌋ + 1

/-- `MicrogridComponentIDs` wire message. -/
structure PBMicrogridComponentIDs where
  microgrid_id : Int
  component_ids : List Int
deriving DecidableEq, Repr

/-- `TimeFilter` wire message; `none` models an unset field (presence false). -/
structure PBTimeFilter where
  start : Option PBTimestamp
  end_ : Option PBTimestamp
deriving DecidableEq, Repr

/-- `IncludeOptions.FilterOption` enum. -/
inductive FilterOption where
  | filter_option_include : FilterOption
  | filter_option_exclude : FilterOption
deriving DecidableEq, Repr

/-- `IncludeOptions` wire message. -/
structure PBIncludeOptions where
  bounds : FilterOption
  states : FilterOption
deriving DecidableEq, Repr

/-- `ResamplingOptions` wire message; `none` models an unset `resolution`
(the protobuf constructor treats a `None` keyword argument as "not set"). -/
structure PBResamplingOptions where
  resolution : Option ℤ
deriving DecidableEq, Repr

/-- `ReceiveMicrogridComponentsDataStreamRequest.StreamFilter` wire message. -/
structure StreamFilter where
  time_filter : PBTimeFilter
  resampling_options : PBResamplingOptions
  include_options : PBIncludeOptions
deriving DecidableEq, Repr

/-- `MetricConnections` wire message. -/
structure PBMetricConnections where
  metric : Nat
  connections : List String
deriving DecidableEq, Repr

/-- `ReceiveMicrogridComponentsDataStreamRequest` wire message. -/
structure PBReceiveMicrogridComponentsDataStreamRequest where
  microgrid_components : List PBMicrogridComponentIDs
  metrics : List PBMetricConnections
  filter : StreamFilter
deriving DecidableEq, Repr

/-- The local helper `dt2ts` of `_list_microgrid_components_data_batch`. -/
def dt2ts (dt : PyDatetime) : PBTimestamp := PBTimestamp.fromDatetime dt

/-- The request-construction part of
`ReportingApiClient._list_microgrid_components_data_batch`, translated line by
line from the source (microgrid/component groupings passed through, time
filter fields set only for truthy datetimes, resampling resolution from
Python `round` of `total_seconds()`, include options mapped to explicit
include/exclude markers, metric connections from the catalog's wire codes). -/
def buildStreamRequest (microgrid_components : List (Int × List Int))
    (metrics : List Metric) (start_dt end_dt : Option PyDatetime)
    (resampling_period : Option PyTimedelta)
    (include_states include_bounds : Bool) :
    PBReceiveMicrogridComponentsDataStreamRequest :=
  let microgrid_components_pb := microgrid_components.map
    (fun mc => PBMicrogridComponentIDs.mk mc.1 mc.2)
  let time_filter := PBTimeFilter.mk
    (match start_dt with
      | some dt => if pyDatetimeTruthy dt then some (dt2ts dt) else none
      | none => none)
    (match end_dt with
      | some dt => if pyDatetimeTruthy dt then some (dt2ts dt) else none
      | none => none)
  let incl_states :=
    if include_states then FilterOption.filter_option_include
    else FilterOption.filter_option_exclude
  let incl_bounds :=
    if include_bounds then FilterOption.filter_option_include
    else FilterOption.filter_option_exclude
  let include_options := PBIncludeOptions.mk incl_bounds incl_states
  let stream_filter := StreamFilter.mk time_filter
    (PBResamplingOptions.mk
      (match resampling_period with
        | some p => some (pythonRound p.total_seconds)
        | none => none))
    include_options
  let metric_conns_pb := metrics.map (fun m => PBMetricConnections.mk m.to_proto [])
  PBReceiveMicrogridComponentsDataStreamRequest.mk
    microgrid_components_pb metric_conns_pb stream_filter

/-- The behaviour of one server-streaming RPC call: the responses the
transport delivers in order, then either a normal end of stream or an
`AioRpcError` raised by the transport. -/
structure RpcStream where
  responses : List PBReceiveMicrogridComponentsDataStreamResponse
  raises_rpc_error : Bool
deriving DecidableEq, Repr

/-- The exceptions relevant to the client's streaming paths:
`grpc.aio.AioRpcError` from the transport, and `ClientNotConnected` from the
`stub` property of the base client. -/
inductive PyExc where
  | aioRpcError : PyExc
  | clientNotConnected : PyExc
deriving DecidableEq, Repr

/-- Result of running a (batch-level) generator to completion: the values it
yielded, what it printed, and the exception it raised, if any. -/
structure BatchGenResult where
  batches : List ComponentsDataBatch
  log : List String
  raised : Option PyExc
deriving DecidableEq, Repr

/-- The `async for response in stream` loop body: each response is wrapped in
a `ComponentsDataBatch` and yielded, unless the `if not response: break`
guard fires (it never does, since protobuf messages are always truthy).
Returns the yielded batches and whether the loop exited via `break`. -/
def streamLoop : List PBReceiveMicrogridComponentsDataStreamResponse →
    List ComponentsDataBatch × Bool
  | [] => ([], false)
  | r :: rs =>
    if !pbMessageTruthy then ([], true)
    else
      let rest := streamLoop rs
      (ComponentsDataBatch.mk r :: rest.1, rest.2)

/-- The `try` block of `_list_microgrid_components_data_batch`, before the
`except` clause: accessing `self.stub` raises `ClientNotConnected` when the
client is not connected; otherwise the stream is consumed, and the
transport's `AioRpcError`, if any, is raised when the loop pulls past the
last delivered response (so not if the loop ended via `break`). -/
def listBatchesRaw (connected : Bool) (stream : RpcStream) :
    List ComponentsDataBatch × Option PyExc :=
  if !connected then ([], some PyExc.clientNotConnected)
  else
    let loop := streamLoop stream.responses
    if stream.raises_rpc_error && !loop.2 then (loop.1, some PyExc.aioRpcError)
    else (loop.1, none)

/-- `ReportingApiClient._list_microgrid_components_data_batch`: builds the
request, opens the stream the transport answers with, and yields one
`ComponentsDataBatch` per response; `except grpcaio.AioRpcError` prints
"RPC failed" and returns (normal generator end), every other exception
propagates. -/
def list_microgrid_components_data_batch (connected : Bool)
    (transport : PBReceiveMicrogridComponentsDataStreamRequest → RpcStream)
    (microgrid_components : List (Int × List Int)) (metrics : List Metric)
    (start_dt end_dt : Option PyDatetime)
    (resampling_period : Option PyTimedelta)
    (include_states include_bounds : Bool) : BatchGenResult :=
  let request := buildStreamRequest microgrid_components metrics
    start_dt end_dt resampling_period include_states include_bounds
  let raw := listBatchesRaw connected (transport request)
  match raw.2 with
  | some PyExc.aioRpcError => BatchGenResult.mk raw.1 ["RPC failed"] none
  | other => BatchGenResult.mk raw.1 [] other

/-- Result of running a (sample-level) public generator to completion. -/
structure SampleGenResult where
  samples : List MetricSample
  log : List String
  raised : Option PyExc
deriving DecidableEq, Repr

/-- The `metrics` argument of the public entry points: a single `Metric` or a
list of metrics. -/
inductive MetricsArg where
  | single (m : Metric) : MetricsArg
  | many (ms : List Metric) : MetricsArg
deriving DecidableEq, Repr

/-- The `[metrics] if isinstance(metrics, Metric) else metrics` normalization
both public entry points perform. -/
def normalizeMetrics : MetricsArg → List Metric
  | MetricsArg.single m => [m]
  | MetricsArg.many ms => ms

/-- `ReportingApiClient.list_single_component_data`: funnels into the batch
generator with `microgrid_components=[(microgrid_id, [component_id])]` and
re-yields every sample of every batch. -/
def list_single_component_data (catalog : Nat → String) (connected : Bool)
    (transport : PBReceiveMicrogridComponentsDataStreamRequest → RpcStream)
    (microgrid_id component_id : Int) (metrics : MetricsArg)
    (start_dt end_dt : Option PyDatetime)
    (resampling_period : Option PyTimedelta)
    (include_states include_bounds : Bool) : SampleGenResult :=
  let inner := list_microgrid_components_data_batch connected transport
    [(microgrid_id, [component_id])] (normalizeMetrics metrics)
    start_dt end_dt resampling_period include_states include_bounds
  SampleGenResult.mk (inner.batches.flatMap (ComponentsDataBatch.iter catalog))
    inner.log inner.raised

/-- `ReportingApiClient.list_microgrid_components_data`: funnels into the
batch generator with the given microgrid/component groupings and re-yields
every sample of every batch. -/
def list_microgrid_components_data (catalog : Nat → String) (connected : Bool)
    (transport : PBReceiveMicrogridComponentsDataStreamRequest → RpcStream)
    (microgrid_components : List (Int × List Int)) (metrics : MetricsArg)
    (start_dt end_dt : Option PyDatetime)
    (resampling_period : Option PyTimedelta)
    (include_states include_bounds : Bool) : SampleGenResult :=
  let inner := list_microgrid_components_data_batch connected transport
    microgrid_components (normalizeMetrics metrics)
    start_dt end_dt resampling_period include_states include_bounds
  SampleGenResult.mk (inner.batches.flatMap (ComponentsDataBatch.iter catalog))
    inner.log inner.raised

/-- Modelled from the claim's words (C1): the bound sub-samples of one metric
sample, by ascending bound index, lower side before upper side, each side
present exactly when its value is non-zero (truthy). -/
def claimBoundSubSamples (ts : PyDatetime) (mid cid : Int) (met : String)
    (bs : List PBBounds) : List MetricSample :=
  ((List.range bs.length).map (fun i =>
    let b := bs.getD i (PBBounds.mk 0 0)
    (if b.lower ≠ 0 then
      [MetricSample.mk ts mid cid (met ++ "_bound_" ++ toString i ++ "_lower")
        (PyValue.pyFloat b.lower)]
    else []) ++
    (if b.upper ≠ 0 then
      [MetricSample.mk ts mid cid (met ++ "_bound_" ++ toString i ++ "_upper")
        (PyValue.pyFloat b.upper)]
    else []))).flatten

/-- A catalog mapping every metric code to the label "X" (for concrete
round-trip inputs). -/
def catalogX : Nat → String := fun _ => "X"

/-- Concrete input for the C2 round-trip: one metric sample with a simple
value of 42 and a single bound with lower 5 and upper 10. -/
def c2Sample : PBMetricSample :=
  PBMetricSample.mk (PBTimestamp.mk 100) 7
    (MetricSampleVariant.mk (some (SimpleMetricSample.mk 42))) [PBBounds.mk 5 10]

/-- A one-component batch holding `c2Sample`. -/
def c2Batch : ComponentsDataBatch :=
  ComponentsDataBatch.mk
    (PBReceiveMicrogridComponentsDataStreamResponse.mk 1
      [PBComponentData.mk 2 [c2Sample] []])

/-- Concrete input for C3: a metric sample whose value variant has no
`simple_metric` set (e.g. another variant kind, or none at all). -/
def c3Sample : PBMetricSample :=
  PBMetricSample.mk (PBTimestamp.mk 100) 7 (MetricSampleVariant.mk none) []

/-- A one-component batch holding `c3Sample`. -/
def c3Batch : ComponentsDataBatch :=
  ComponentsDataBatch.mk
    (PBReceiveMicrogridComponentsDataStreamResponse.mk 1
      [PBComponentData.mk 2 [c3Sample] []])

/-- Concrete input for C6: a batch holding one state sample, whose naive wire
timestamp is 2024-01-01T00:00:00 UTC (1704067200000000 microseconds since the
epoch), with one state code. -/
def c6Batch : ComponentsDataBatch :=
  ComponentsDataBatch.mk
    (PBReceiveMicrogridComponentsDataStreamResponse.mk 1
      [PBComponentData.mk 2 []
        [PBStateSample.mk (PBTimestamp.mk 1704067200000000) [3] [] []]])

/-- The stream loop never exits via `break`: protobuf messages are always
truthy, so `if not response: break` is dead code. -/
theorem streamLoop_snd_false (rs : List PBReceiveMicrogridComponentsDataStreamResponse) :
    (streamLoop rs).2 = false := by
  induction rs with
  | nil => rfl
  | cons r rs ih => simp [streamLoop, pbMessageTruthy, ih]

/-- On a connected client the try-block yields one batch per response and
raises exactly when the transport raises. -/
theorem listBatchesRaw_connected (s : RpcStream) :
    listBatchesRaw true s =
      ((streamLoop s.responses).1,
        if s.raises_rpc_error then some PyExc.aioRpcError else none) := by
  simp [listBatchesRaw, streamLoop_snd_false]
  cases s.raises_rpc_error <;> simp

/-- C3: the claim says a metric sample whose value variant is not the simple
variant is emitted with a null value.  The code disagrees: a protobuf
sub-message is always truthy in Python, so the `else None` branch of
`msample.value.simple_metric.value if msample.value.simple_metric else None`
is dead, and the sample is emitted with the protobuf default float `0.0`
instead of `None`.  Evaluating the embedded code on a batch holding one
metric sample with no `simple_metric` variant set shows the emitted value is
the float 0, not null. -/
theorem claim_C3_no_variant_emits_default_zero :
    ComponentsDataBatch.iter catalogX c3Batch =
      [MetricSample.mk (PyDatetime.mk 100 true) 1 2 "X" (PyValue.pyFloat 0)] := rfl

/-- C4: `is_empty()` returns true iff the batch has zero components, or its
first component has no metric samples and no states. -/
theorem claim_C4_is_empty_iff (b : ComponentsDataBatch) :
    b.is_empty = true ↔
      b.data_pb.components = [] ∨
        ∃ c0, b.data_pb.components.head? = some c0 ∧
          c0.metric_samples = [] ∧ c0.states = [] := by
  obtain ⟨mid, comps⟩ := b
  cases comps with
  | nil => simp [ComponentsDataBatch.is_empty]
  | cons c0 rest =>
    simp [ComponentsDataBatch.is_empty, List.isEmpty_iff]

/-- C5: a request built with `start_dt=None`, `end_dt=None`,
`resampling_period=None` carries no start, no end and no resolution field
(all three are absent, not zero-valued). -/
theorem claim_C5_absent_time_and_resolution (mcs : List (Int × List Int))
    (metrics : List Metric) (include_states include_bounds : Bool) :
    (buildStreamRequest mcs metrics none none none
        include_states include_bounds).filter.time_filter.start = none ∧
    (buildStreamRequest mcs metrics none none none
        include_states include_bounds).filter.time_filter.end_ = none ∧
    (buildStreamRequest mcs metrics none none none
        include_states include_bounds).filter.resampling_options.resolution = none :=
  ⟨rfl, rfl, rfl⟩

/-- C9: `list_single_component_data(microgrid_id=m, component_id=c, ...)`
yields exactly the result of
`list_microgrid_components_data(microgrid_components=[(m, [c])], ...)`, for
every connection state, transport behaviour and choice of the remaining
arguments. -/
theorem claim_C9_single_is_special_case (catalog : Nat → String)
    (connected : Bool)
    (transport : PBReceiveMicrogridComponentsDataStreamRequest → RpcStream)
    (m c : Int) (metrics : MetricsArg) (start_dt end_dt : Option PyDatetime)
    (resampling_period : Option PyTimedelta) (st bd : Bool) :
    list_single_component_data catalog connected transport m c metrics
        start_dt end_dt resampling_period st bd =
      list_microgrid_components_data catalog connected transport [(m, [c])]
        metrics start_dt end_dt resampling_period st bd := rfl

/-- C10: on a client that is not connected, consuming either public entry
point propagates `ClientNotConnected` (nothing is yielded, nothing is
printed); the except clause catches only `AioRpcError`, so this error is not
turned into a graceful stream end. -/
theorem claim_C10_not_connected_propagates (catalog : Nat → String)
    (transport : PBReceiveMicrogridComponentsDataStreamRequest → RpcStream)
    (m c : Int) (mcs : List (Int × List Int)) (metrics : MetricsArg)
    (start_dt end_dt : Option PyDatetime)
    (resampling_period : Option PyTimedelta) (st bd : Bool) :
    list_single_component_data catalog false transport m c metrics
        start_dt end_dt resampling_period st bd =
      SampleGenResult.mk [] [] (some PyExc.clientNotConnected) ∧
    list_microgrid_components_data catalog false transport mcs metrics
        start_dt end_dt resampling_period st bd =
      SampleGenResult.mk [] [] (some PyExc.clientNotConnected) :=
  ⟨rfl, rfl⟩

/-- C8: if the transport raises an RPC error during streaming (after
delivering any number of responses), the error is caught and reported
("RPC failed" is printed), no exception propagates from either public entry
point, and the caller sees exactly the samples it would have seen had the
stream ended normally after the same responses. -/
theorem claim_C8_rpc_error_swallowed (catalog : Nat → String) (m c : Int)
    (mcs : List (Int × List Int)) (metrics : MetricsArg)
    (start_dt end_dt : Option PyDatetime)
    (resampling_period : Option PyTimedelta) (st bd : Bool)
    (responses : List PBReceiveMicrogridComponentsDataStreamResponse) :
    (list_single_component_data catalog true (fun _ => RpcStream.mk responses true)
          m c metrics start_dt end_dt resampling_period st bd).samples =
      (list_single_component_data catalog true (fun _ => RpcStream.mk responses false)
          m c metrics start_dt end_dt resampling_period st bd).samples ∧
    (list_single_component_data catalog true (fun _ => RpcStream.mk responses true)
          m c metrics start_dt end_dt resampling_period st bd).raised = none ∧
    (list_single_component_data catalog true (fun _ => RpcStream.mk responses true)
          m c metrics start_dt end_dt resampling_period st bd).log = ["RPC failed"] ∧
    (list_microgrid_components_data catalog true (fun _ => RpcStream.mk responses true)
          mcs metrics start_dt end_dt resampling_period st bd).samples =
      (list_microgrid_components_data catalog true (fun _ => RpcStream.mk responses false)
          mcs metrics start_dt end_dt resampling_period st bd).samples ∧
    (list_microgrid_components_data catalog true (fun _ => RpcStream.mk responses true)
          mcs metrics start_dt end_dt resampling_period st bd).raised = none ∧
    (list_microgrid_components_data catalog true (fun _ => RpcStream.mk responses true)
          mcs metrics start_dt end_dt resampling_period st bd).log = ["RPC failed"] := by
  simp [list_single_component_data, list_microgrid_components_data,
    list_microgrid_components_data_batch, listBatchesRaw_connected]

/-- Python `round()` returns a nearest integer: its distance to the argument
is at most one half. -/
theorem pythonRound_nearest (q : ℚ) : |q - (pythonRound q : ℚ)| ≤ 1 / 2 := by
  have h0 : 0 ≤ Int.fract q := Int.fract_nonneg q
  have h1 : Int.fract q < 1 := Int.fract_lt_one q
  have hq : Int.fract q = q - ⌊q⌋ := rfl
  unfold pythonRound
  by_cases hlt : Int.fract q < 1 / 2
  · rw [if_pos hlt, abs_of_nonneg (by linarith)]
    linarith
  · rw [if_neg hlt]
    by_cases hgt : 1 / 2 < Int.fract q
    · rw [if_pos hgt]
      push_cast
      rw [abs_of_nonpos (by linarith)]
      linarith
    · have heq : q - ⌊q⌋ = 1 / 2 := by
        rw [← hq]
        exact le_antisymm (not_lt.mp hgt) (not_lt.mp hlt)
      rw [if_neg hgt]
      by_cases hev : Even ⌊q⌋
      · rw [if_pos hev, abs_of_nonneg (by linarith)]
        linarith
      · rw [if_neg hev]
        push_cast
        rw [abs_of_nonpos (by linarith)]
        linarith

/-- Python `round()` resolves an exact half-way argument to the even
neighbour (banker's rounding). -/
theorem pythonRound_tie_even (q : ℚ) (h : Int.fract q = 1 / 2) :
    Even (pythonRound q) := by
  unfold pythonRound
  rw [if_neg (by rw [h]; exact lt_irrefl _), if_neg (by rw [h]; exact lt_irrefl _)]
  by_cases hev : Even ⌊q⌋
  · rw [if_pos hev]
    exact hev
  · rw [if_neg hev]
    exact Int.even_add_one.mpr hev

/-- C7: for a non-null resampling period, the built request's resolution is
`round(total_seconds())`: the duration in seconds rounded to the nearest
integer second, with the half-second boundary resolved by the single fixed
policy round-half-to-even (Python 3 `round`). -/
theorem claim_C7_resolution_is_rounded_seconds (mcs : List (Int × List Int))
    (metrics : List Metric) (start_dt end_dt : Option PyDatetime)
    (p : PyTimedelta) (st bd : Bool) :
    (buildStreamRequest mcs metrics start_dt end_dt (some p)
        st bd).filter.resampling_options.resolution
      = some (pythonRound p.total_seconds) ∧
    |p.total_seconds - (pythonRound p.total_seconds : ℚ)| ≤ 1 / 2 ∧
    (Int.fract p.total_seconds = 1 / 2 → Even (pythonRound p.total_seconds)) :=
  ⟨rfl, pythonRound_nearest _, fun h => pythonRound_tie_even _ h⟩

/-- C7 witness: a resampling period of 2.5 s (2500000 µs) sits exactly on the
half-second boundary; the built request's resolution is 2, the even
neighbour. -/
theorem claim_C7_witness :
    Int.fract (PyTimedelta.mk 2500000).total_seconds = 1 / 2 ∧
    (buildStreamRequest [] [] none none (some (PyTimedelta.mk 2500000))
        false false).filter.resampling_options.resolution = some 2 ∧
    Even (pythonRound (PyTimedelta.mk 2500000).total_seconds) := by
  have hfr : Int.fract (PyTimedelta.mk 2500000).total_seconds = 1 / 2 := by
    norm_num [PyTimedelta.total_seconds, Int.fract]
  have h := claim_C7_resolution_is_rounded_seconds [] [] none none
    (PyTimedelta.mk 2500000) false false
  refine ⟨hfr, ?_, h.2.2 hfr⟩
  rw [h.1]
  norm_num [pythonRound, PyTimedelta.total_seconds, Int.fract]

/-- A `for (i, x) in enumerate(l)` loop that yields lists concatenates, for
ascending `i`, the block of the element at index `i`. -/
theorem enumFrom_flatMap_eq_range {α β : Type} (d : α) (l : List α) :
    ∀ (n : Nat) (f : Nat × α → List β),
      (l.enumFrom n).flatMap f =
        ((List.range l.length).map (fun i => f (n + i, l.getD i d))).flatten := by
  induction l with
  | nil => intro n f; rfl
  | cons a t ih =>
    intro n f
    have h1 : (List.range (a :: t).length).map (fun i => f (n + i, (a :: t).getD i d))
        = f (n, a) :: (List.range t.length).map (fun i => f (n + 1 + i, t.getD i d)) := by
      rw [List.length_cons, List.range_succ_eq_map, List.map_cons, List.map_map]
      refine congrArg₂ _ (by simp) ?_
      refine List.map_congr_left ?_
      intro i _
      simp only [Function.comp_apply, Nat.succ_eq_add_one, List.getD_cons_succ]
      have h2 : n + (i + 1) = n + 1 + i := by omega
      rw [h2]
    rw [h1, List.flatten_cons]
    show ((n, a) :: t.enumFrom (n + 1)).flatMap f = _
    rw [List.flatMap_cons, ih (n + 1) f]

/-- C1: iterating a batch yields, for each component in response order, first
the blocks of all its metric samples in response order, then all its
state-category samples; and the block of one metric sample is its primary
sample (the sample the stripped-of-bounds metric sample would yield)
followed immediately by its bound sub-samples, in ascending bound index,
lower side before upper side. -/
theorem claim_C1_iteration_order (catalog : Nat → String)
    (b : ComponentsDataBatch) (mid cid : Int) (ms : PBMetricSample) :
    ComponentsDataBatch.iter catalog b =
      ((b.data_pb.components.map (fun cdata =>
        ((cdata.metric_samples.map
            (metricSampleYields catalog b.data_pb.microgrid_id cdata.component_id)).flatten
          ++ (cdata.states.map
            (stateSampleYields b.data_pb.microgrid_id cdata.component_id)).flatten))).flatten) ∧
    metricSampleYields catalog mid cid ms =
      metricSampleYields catalog mid cid
          (PBMetricSample.mk ms.sampled_at ms.metric ms.value []) ++
        claimBoundSubSamples (ms.sampled_at.toDatetime.replaceTzUtc) mid cid
          (catalog ms.metric) ms.bounds := by
  constructor
  · simp [ComponentsDataBatch.iter, List.flatMap_def]
  · simp only [metricSampleYields, List.enum, List.cons_append, List.nil_append,
      List.flatMap_nil]
    refine congrArg₂ _ rfl ?_
    simp only [List.enumFrom_nil, List.flatMap_nil, List.nil_append]
    rw [enumFrom_flatMap_eq_range (PBBounds.mk 0 0)]
    simp [claimBoundSubSamples, pbFloatTruthy]

/-- For a metric sample with exactly one bound, the yielded block is the
primary sample followed by the conditionally emitted lower and upper bound
sub-samples. -/
theorem metricSampleYields_singleton_bound (catalog : Nat → String)
    (mid cid : Int) (ms : PBMetricSample) (lo up : ℚ)
    (hb : ms.bounds = [PBBounds.mk lo up]) :
    metricSampleYields catalog mid cid ms =
      MetricSample.mk ms.sampled_at.toDatetime.replaceTzUtc mid cid
          (catalog ms.metric)
          (if pbMessageTruthy then PyValue.pyFloat ms.value.get_simple_metric.value
            else PyValue.pyNone) ::
        ((if pbFloatTruthy lo then
            [MetricSample.mk ms.sampled_at.toDatetime.replaceTzUtc mid cid
              (catalog ms.metric ++ "_bound_" ++ toString (0 : Nat) ++ "_lower")
              (PyValue.pyFloat lo)]
          else []) ++
          (if pbFloatTruthy up then
            [MetricSample.mk ms.sampled_at.toDatetime.replaceTzUtc mid cid
              (catalog ms.metric ++ "_bound_" ++ toString (0 : Nat) ++ "_upper")
              (PyValue.pyFloat up)]
          else [])) := by
  simp [metricSampleYields, hb, List.enum, List.enumFrom]

/-- C2: a batch with one metric sample (label "X", simple value 42, one bound
with lower 5.0 and upper 10.0) yields exactly the three samples `X`,
`X_bound_0_lower` = 5, `X_bound_0_upper` = 10, in that order; and in general,
for a metric sample with one bound, a bound side sub-sample is emitted iff
that side's value is truthy (non-zero — an unset proto float reads as 0). -/
theorem claim_C2_bound_emission (catalog : Nat → String) (mid cid : Int)
    (ms : PBMetricSample) (lo up : ℚ)
    (hb : ms.bounds = [PBBounds.mk lo up]) :
    ComponentsDataBatch.iter catalogX c2Batch =
      [MetricSample.mk (PyDatetime.mk 100 true) 1 2 "X" (PyValue.pyFloat 42),
       MetricSample.mk (PyDatetime.mk 100 true) 1 2 "X_bound_0_lower" (PyValue.pyFloat 5),
       MetricSample.mk (PyDatetime.mk 100 true) 1 2 "X_bound_0_upper" (PyValue.pyFloat 10)] ∧
    ((∃ s, s ∈ metricSampleYields catalog mid cid ms ∧
        s.metric = catalog ms.metric ++ "_bound_" ++ toString (0 : Nat) ++ "_lower" ∧
        s.value = PyValue.pyFloat lo) ↔ lo ≠ 0) ∧
    ((∃ s, s ∈ metricSampleYields catalog mid cid ms ∧
        s.metric = catalog ms.metric ++ "_bound_" ++ toString (0 : Nat) ++ "_upper" ∧
        s.value = PyValue.pyFloat up) ↔ up ≠ 0) := by
  have hy := metricSampleYields_singleton_bound catalog mid cid ms lo up hb
  refine ⟨rfl, ?_, ?_⟩
  · constructor
    · rintro ⟨s, hs, hmet, hval⟩
      intro hlo0
      rw [hy] at hs
      have hft : pbFloatTruthy lo = false := by simp [pbFloatTruthy, hlo0]
      rw [hft] at hs
      simp only [if_neg (by simp : ¬(false = true)), List.nil_append] at hs
      rcases List.mem_cons.mp hs with h1 | h1
      · rw [h1] at hmet
        simp only at hmet
        have hl := congrArg String.length hmet
        simp only [String.length_append] at hl
        have h7 : "_bound_".length = 7 := rfl
        have h6 : "_lower".length = 6 := rfl
        omega
      · by_cases hup : pbFloatTruthy up = true
        · rw [if_pos hup] at h1
          rcases List.mem_singleton.mp h1 with h2
          rw [h2] at hmet
          simp only at hmet
          have hd := congrArg String.data hmet
          simp only [String.data_append, List.append_assoc] at hd
          have hc := List.append_cancel_left (List.append_cancel_left
            (List.append_cancel_left hd))
          exact absurd hc (by decide)
        · rw [if_neg hup] at h1
          exact absurd h1 (List.not_mem_nil s)
    · intro hlo
      have hft : pbFloatTruthy lo = true := by simp [pbFloatTruthy, hlo]
      refine ⟨MetricSample.mk ms.sampled_at.toDatetime.replaceTzUtc mid cid
        (catalog ms.metric ++ "_bound_" ++ toString (0 : Nat) ++ "_lower")
        (PyValue.pyFloat lo), ?_, rfl, rfl⟩
      rw [hy, hft]
      simp
  · constructor
    · rintro ⟨s, hs, hmet, hval⟩
      intro hup0
      rw [hy] at hs
      have hft : pbFloatTruthy up = false := by simp [pbFloatTruthy, hup0]
      rw [hft] at hs
      simp only [if_neg (by simp : ¬(false = true)), List.append_nil] at hs
      rcases List.mem_cons.mp hs with h1 | h1
      · rw [h1] at hmet
        simp only at hmet
        have hl := congrArg String.length hmet
        simp only [String.length_append] at hl
        have h7 : "_bound_".length = 7 := rfl
        have h6 : "_upper".length = 6 := rfl
        omega
      · by_cases hlo : pbFloatTruthy lo = true
        · rw [if_pos hlo] at h1
          rcases List.mem_singleton.mp h1 with h2
          rw [h2] at hmet
          simp only at hmet
          have hd := congrArg String.data hmet
          simp only [String.data_append, List.append_assoc] at hd
          have hc := List.append_cancel_left (List.append_cancel_left
            (List.append_cancel_left hd))
          exact absurd hc (by decide)
        · rw [if_neg hlo] at h1
          exact absurd h1 (List.not_mem_nil s)
    · intro hup
      have hft : pbFloatTruthy up = true := by simp [pbFloatTruthy, hup]
      refine ⟨MetricSample.mk ms.sampled_at.toDatetime.replaceTzUtc mid cid
        (catalog ms.metric ++ "_bound_" ++ toString (0 : Nat) ++ "_upper")
        (PyValue.pyFloat up), ?_, rfl, rfl⟩
      rw [hy, hft]
      simp

/-- Membership in a conditionally-emitted singleton block forces equality
with the single element. -/
theorem mem_ite_singleton {c : Prop} [Decidable c] {x s : MetricSample}
    (h : s ∈ if c then [x] else ([] : List MetricSample)) : s = x := by
  split at h
  · exact List.mem_singleton.mp h
  · exact absurd h (List.not_mem_nil s)

/-- C6 counterexample: the claim says every emitted sample, including
state-category samples, carries a timezone-aware UTC timestamp.  On a batch
holding one state sample with naive wire timestamp 2024-01-01T00:00:00 UTC,
the emitted state sample's timestamp is tz-naive: the state loop calls
`ToDatetime()` without the `replace(tzinfo=timezone.utc)` normalization. -/
theorem claim_C6_counterexample :
    ∃ s ∈ ComponentsDataBatch.iter catalogX c6Batch, s.timestamp.tzUtc = false := by
  refine ⟨MetricSample.mk (PyDatetime.mk 1704067200000000 false) 1 2 "state"
    (PyValue.pyInt 3), ?_, rfl⟩
  decide

/-- C6 (amended): every sample emitted by the metric-sample loop (the primary
sample and the bound sub-samples) carries a timezone-aware UTC timestamp,
but a sample emitted by the state loop carries the wire timestamp converted
by `ToDatetime()` unchanged, i.e. timezone-naive. -/
theorem claim_C6_amended_tz (catalog : Nat → String) (mid cid : Int)
    (ms : PBMetricSample) (st : PBStateSample) (s₁ s₂ : MetricSample)
    (h₁ : s₁ ∈ metricSampleYields catalog mid cid ms)
    (h₂ : s₂ ∈ stateSampleYields mid cid st) :
    s₁.timestamp.tzUtc = true ∧
    s₂.timestamp = st.sampled_at.toDatetime ∧ s₂.timestamp.tzUtc = false := by
  refine ⟨?_, ?_, ?_⟩
  · rcases List.mem_cons.mp h₁ with h | h
    · rw [h]
      rfl
    · rcases List.mem_flatMap.mp h with ⟨p, _hp, hmem⟩
      rcases List.mem_append.mp hmem with hm | hm
      · rw [mem_ite_singleton hm]
        rfl
      · rw [mem_ite_singleton hm]
        rfl
  · simp only [stateSampleYields, pbRepeatedIsIterable, if_pos] at h₂
    rcases List.mem_flatMap.mp h₂ with ⟨nc, _hnc, hmem⟩
    rcases List.mem_map.mp hmem with ⟨a, _ha, hs⟩
    rw [← hs]
  · simp only [stateSampleYields, pbRepeatedIsIterable, if_pos] at h₂
    rcases List.mem_flatMap.mp h₂ with ⟨nc, _hnc, hmem⟩
    rcases List.mem_map.mp hmem with ⟨a, _ha, hs⟩
    rw [← hs]
    rfl

/-- C2 witness: the singleton-bound hypothesis holds for the concrete sample
`c2Sample` (bound lower 5, upper 10), and the lower-side sub-sample is
emitted there since 5 is non-zero. -/
theorem claim_C2_witness :
    c2Sample.bounds = [PBBounds.mk 5 10] ∧
    ((∃ s, s ∈ metricSampleYields catalogX 1 2 c2Sample ∧
        s.metric = catalogX c2Sample.metric ++ "_bound_" ++ toString (0 : Nat) ++ "_lower" ∧
        s.value = PyValue.pyFloat 5) ↔ (5 : ℚ) ≠ 0) :=
  ⟨rfl, (claim_C2_bound_emission catalogX 1 2 c2Sample 5 10 rfl).2.1⟩

/-- C6 witness: on the concrete metric sample of `c2Sample` the primary
sample's timestamp is tz-aware, while the concrete state sample of `c6Batch`
is emitted with its naive wire timestamp. -/
theorem claim_C6_witness :
    (MetricSample.mk (PyDatetime.mk 100 true) 1 2 "X" (PyValue.pyFloat 42)).timestamp.tzUtc
      = true ∧
    (MetricSample.mk (PyDatetime.mk 1704067200000000 false) 1 2 "state"
        (PyValue.pyInt 3)).timestamp = (PBTimestamp.mk 1704067200000000).toDatetime ∧
    (MetricSample.mk (PyDatetime.mk 1704067200000000 false) 1 2 "state"
        (PyValue.pyInt 3)).timestamp.tzUtc = false :=
  claim_C6_amended_tz catalogX 1 2 c2Sample
    (PBStateSample.mk (PBTimestamp.mk 1704067200000000) [3] [] []) _ _
    (by decide) (by decide)
